import Mathlib

/-!
Verification development for the catt-cast-gui repository.

Shallow embedding of the two source files that carry the logic under
scrutiny:

* `piped_get_url.py` — extraction of a video identifier from a URL or bare
  token, scoring/selection of progressive streams, and fallback to HLS/DASH
  manifests (`extract_video_id`, `score_progressive`,
  `pick_best_progressive`, `get_best_piped_url`).
* `catt_cast_gui/gui.py` — the device-session state machine: the
  single-command-in-flight busy check (`run_catt_command`), the detached
  local-cast process lifecycle (`kill_local_cast_process`, `cast_media`),
  the fast-poll confirming cycle (`_start_fast_poll`,
  `_poll_status_after_cast`), status-text parsing
  (`handle_status_update`), the local progress ticker
  (`update_local_progress`), the detached local-cast worker
  (`CattWorker._run_local_cast`) and the Piped resolution flow
  (`_get_url_from_piped_and_run`, `handle_piped_error`,
  `_on_piped_thread_finished`).

Machine integers are modelled as `Int`/`Nat` (Python ints are unbounded, so
no wraparound is needed).  Numeric-literal parsing (`int(...)`) is modelled
by `String.toInt?`; Python's `int` additionally tolerates surrounding
whitespace and a leading `+`, which never matters for the inputs the claims
are about.
-/

/-! ### Python string helpers

All string manipulation is implemented over `List Char` with structural
recursion so that every definition evaluates inside the kernel (`decide`,
`rfl`). -/

/-- Python truthiness of an optional string (`None` and `""` are falsy). -/
def pyTruthyStr : Option String → Bool
  | none => false
  | some s => !(s == "")

/-- Python `a or b` on an optional string, yielding the fallback when the
first operand is falsy. -/
def pyOrStr (a : Option String) (b : String) : String :=
  match a with
  | none => b
  | some s => if s == "" then b else s

/-- `hay` contains `needle` as a substring (Python `needle in hay`). -/
def strContains (hay needle : String) : Bool :=
  decide (List.IsInfix needle.data hay.data)

/-- Does `s` end with `suf`? -/
def strEndsWith (s suf : String) : Bool :=
  suf.data.reverse.isPrefixOf s.data.reverse

/-- Does `s` start with `pre`? -/
def strStartsWith (s pre : String) : Bool :=
  pre.data.isPrefixOf s.data

/-- Split `l` at the first occurrence of `sep`, returning the part before
it (accumulated reversed in `acc`) and the remainder after it. -/
def splitFirstAux (sep : List Char) : List Char → List Char → Option (List Char × List Char)
  | [], _ => none
  | c :: rest, acc =>
    if sep.isPrefixOf (c :: rest) then some (acc.reverse, (c :: rest).drop sep.length)
    else splitFirstAux sep rest (c :: acc)

/-- Python `s.split(sep, 1)`: split at the first occurrence of `sep` only;
`none` when `sep` does not occur (callers guard with `sep in s`). -/
def splitOnce (sep line : String) : Option (String × String) :=
  if sep.data.isEmpty then none
  else match splitFirstAux sep.data line.data [] with
    | none => none
    | some (pre, post) => some (String.mk pre, String.mk post)

/-- Repeatedly split at `sep`; `fuel` bounds the recursion (each step
consumes at least one character, so `l.length + 1` suffices). -/
def splitAllAux (sep : List Char) : Nat → List Char → List (List Char)
  | 0, l => [l]
  | fuel + 1, l =>
    match splitFirstAux sep l [] with
    | none => [l]
    | some (pre, post) => pre :: splitAllAux sep fuel post

/-- Python `s.split(sep)` for a non-empty separator. -/
def pySplit (sep s : String) : List String :=
  if sep.data.isEmpty then [s]
  else (splitAllAux sep.data (s.data.length + 1) s.data).map String.mk

/-- Python `s.strip()` (ASCII whitespace). -/
def pyStrip (s : String) : String :=
  String.mk (((s.data.dropWhile Char.isWhitespace).reverse.dropWhile Char.isWhitespace).reverse)

/-- Python `s.lower()` (ASCII case folding). -/
def pyLower (s : String) : String :=
  String.mk (s.data.map Char.toLower)

/-- Parse a non-empty all-digit character list into a `Nat`. -/
def parseDigitsAux : List Char → Nat → Option Nat
  | [], acc => some acc
  | c :: rest, acc =>
    if c.isDigit then parseDigitsAux rest (acc * 10 + (c.toNat - '0'.toNat))
    else none

/-- Python `int(s)` on the string forms the sources feed it: optional
sign followed by decimal digits (`none` models the raised `ValueError`). -/
def pyInt (s : String) : Option Int :=
  match (pyStrip s).data with
  | [] => none
  | '-' :: ds =>
    if ds.isEmpty then none
    else (parseDigitsAux ds 0).map (fun n => -(n : Int))
  | '+' :: ds =>
    if ds.isEmpty then none
    else (parseDigitsAux ds 0).map (fun n => (n : Int))
  | ds => (parseDigitsAux ds 0).map (fun n => (n : Int))

/-! ### `urllib.parse` subset

`urlparse` is modelled for the URL shapes `extract_video_id` inspects:
an optional `scheme:`, an optional `//netloc`, then path, `?query` and
`#fragment`.  (Python's `urlparse` additionally splits `;params` off the
last path segment; none of the code under scrutiny reads `params`.) -/

structure UrlParts where
  scheme : String
  netloc : String
  path : String
  query : String
  frag : String
deriving DecidableEq, Repr

/-- Is `s` a valid scheme body (first char alphabetic, rest alphanumeric or
one of `+`, `-`, `.`)? -/
def validScheme (s : String) : Bool :=
  match s.toList with
  | [] => false
  | c :: cs => c.isAlpha && cs.all (fun d => d.isAlphanum || d == '+' || d == '-' || d == '.')

/-- Split a leading `scheme:` off the URL, if present. -/
def splitScheme (u : String) : String × String :=
  match splitOnce ":" u with
  | none => ("", u)
  | some (h, t) => if validScheme h then (pyLower h, t) else ("", u)

/-- Split a leading `//netloc` off the rest of the URL, if present. -/
def splitNetloc (u : String) : String × String :=
  if strStartsWith u "//" then
    let rest := u.data.drop 2
    let netloc := rest.takeWhile (fun c => c ≠ '/' && c ≠ '?' && c ≠ '#')
    (String.mk netloc, String.mk (rest.drop netloc.length))
  else ("", u)

/-- Model of `urllib.parse.urlparse` on the shapes used by the sources. -/
def urlparse (u : String) : UrlParts :=
  let (scheme, rest) := splitScheme u
  let (beforeFrag, frag) := ((splitOnce "#" rest).map (fun p => p)).getD (rest, "")
  let (netloc, rest2) := splitNetloc beforeFrag
  let (path, query) := ((splitOnce "?" rest2).map (fun p => p)).getD (rest2, "")
  { scheme := scheme, netloc := netloc, path := path, query := query, frag := frag }

/-- First value bound to key `"v"` by `urllib.parse.parse_qs` (blank values
are dropped by `parse_qs`'s default `keep_blank_values=False`; pieces
without `=` are skipped).  Percent-decoding is not modelled — no claim
involves an escaped identifier. -/
def parse_qs_v (query : String) : Option String :=
  let pairs := (pySplit "&" query).filterMap (fun piece =>
    match splitOnce "=" piece with
    | none => none
    | some (k, v) => if v == "" then none else some (k, v))
  (pairs.lookup "v")

/-! ### `piped_get_url.py` -/

/-- The module-level `PIPED_INSTANCE` constant. -/
def PIPED_INSTANCE : String := "pipedapi.kavin.rocks"

/-- Is `arg` a bare 11-character video id (alphanumerics, `-`, `_`)? -/
def isBareVideoId (arg : String) : Bool :=
  arg.length == 11 && arg.toList.all (fun c => c.isAlphanum || c == '-' || c == '_')

/-- First non-empty path segment after stripping leading slashes
(`u.path.lstrip("/").split("/")[0]`). -/
def firstPathSegment (path : String) : String :=
  String.mk ((path.data.dropWhile (fun c => c = '/')).takeWhile (fun c => c ≠ '/'))

/-- `extract_video_id` from `piped_get_url.py`. -/
def extract_video_id (arg : String) : Option String :=
  if isBareVideoId arg then some arg
  else
    let u := urlparse arg
    if u.netloc ≠ "" then
      if strEndsWith u.netloc "youtu.be" then
        let vid := firstPathSegment u.path
        if vid == "" then none else some vid
      else if strContains u.netloc "youtube.com" || strContains u.netloc "youtube-nocookie.com"
              || strContains u.netloc PIPED_INSTANCE then
        match parse_qs_v u.query with
        | some v => some v
        | none =>
          match (pySplit "/" u.path).filter (fun p => p ≠ "") with
          | p0 :: p1 :: _ => if p0 == "shorts" then some p1 else none
          | _ => none
      else none
    else none

/-- `ext_from_url` from `piped_get_url.py`. -/
def ext_from_url (u : String) : String :=
  let path := (urlparse u).path
  match pySplit "." path with
  | [] => ""
  | [_] => ""
  | ps => pyLower (ps.getLastD "")

/-- `norm` from `piped_get_url.py` (applied to an already-defaulted
string). -/
def norm (s : String) : String := pyLower (pyStrip s)

/-- One entry of the relay's `videoStreams` array; `none` models an absent
JSON key (`videoOnly` absent is falsy, hence `Bool` with `false`). -/
structure PStream where
  url : Option String
  videoOnly : Bool
  container : Option String
  format : Option String
  codec : Option String
  codecs : Option String
  height : Option Int
  bitrate : Option Int
deriving DecidableEq, Repr

/-- The relay response body as read by `get_best_piped_url`. -/
structure PipedData where
  videoStreams : List PStream
  hls : Option String
  dash : Option String
deriving DecidableEq, Repr

/-- The 4-tuple score of `score_progressive` (container rank, codec rank,
height, bitrate). -/
structure Score4 where
  c : Nat
  k : Nat
  h : Int
  b : Int
deriving DecidableEq, Repr

/-- The inner `pref_score` of `score_progressive`: walk the preference list
with its enumeration index, skip entries that normalise to the empty
string, return `len(list) - index` at the first match (exact match for
containers, prefix match when `isCodec`), `0` when nothing matches. -/
def pref_score_aux (isCodec : Bool) (val : String) : List String → Nat → Nat → Nat
  | [], _, _ => 0
  | p :: rest, total, i =>
    let pn := norm p
    if pn == "" then pref_score_aux isCodec val rest total (i + 1)
    else if (if isCodec then strStartsWith val pn else val == pn) then total - i
    else pref_score_aux isCodec val rest total (i + 1)

/-- `pref_score` (the closure inside `score_progressive`). -/
def pref_score (isCodec : Bool) (val : String) (l : List String) : Nat :=
  pref_score_aux isCodec val l l.length 0

/-- `score_progressive` from `piped_get_url.py`. -/
def score_progressive (s : PStream) (prefer_container prefer_codecs : List String) : Score4 :=
  let container := norm (pyOrStr s.container (pyOrStr s.format (ext_from_url (s.url.getD ""))))
  let codec := norm (pyOrStr s.codec (pyOrStr s.codecs ""))
  { c := pref_score false container prefer_container
    k := pref_score true codec prefer_codecs
    h := s.height.getD 0
    b := s.bitrate.getD 0 }

/-- Strict lexicographic order on score tuples (Python tuple `<`). -/
def scoreLt (a b : Score4) : Prop :=
  a.c < b.c ∨ (a.c = b.c ∧ (a.k < b.k ∨ (a.k = b.k ∧ (a.h < b.h ∨ (a.h = b.h ∧ a.b < b.b)))))

instance scoreLt.decidable (a b : Score4) : Decidable (scoreLt a b) := by
  unfold scoreLt; infer_instance

/-- Progressive candidates of `pick_best_progressive`: entries with a
truthy `url` and falsy `videoOnly`, paired with their score. -/
def progressive_candidates (streams : List PStream) (pc pk : List String) :
    List (Score4 × String) :=
  streams.filterMap (fun s =>
    if pyTruthyStr s.url && !s.videoOnly then
      some (score_progressive s pc pk, s.url.getD "")
    else none)

/-- `candidates.sort(key=..., reverse=True)` is a stable sort, so
`candidates[0]` after it is the first element attaining the maximal score;
the fold below computes exactly that (it replaces the running best only on
a strictly greater score). -/
def first_max_fold (c : Score4 × String) (l : List (Score4 × String)) : Score4 × String :=
  l.foldl (fun best x => if scoreLt best.1 x.1 then x else best) c

/-- `pick_best_progressive` from `piped_get_url.py`. -/
def pick_best_progressive (data : PipedData) (pc pk : List String) : Option String :=
  match progressive_candidates data.videoStreams pc pk with
  | [] => none
  | c :: rest => some (first_max_fold c rest).2

/-- The tail of `get_best_piped_url` after the relay response is in hand. -/
def get_best_from_data (data : PipedData) (pc pk : List String) : Except String String :=
  match pick_best_progressive data pc pk with
  | some u => .ok u
  | none =>
    if pyTruthyStr data.hls then .ok (data.hls.getD "")
    else if pyTruthyStr data.dash then .ok (data.dash.getD "")
    else .error "No suitable stream URL found (no progressive/HLS/DASH available)."

/-- `get_best_piped_url` with the network fetch abstracted as an oracle
from video id to relay response (the real code performs
`get_streams_json` exactly when an id was extracted). -/
def get_best_piped_url (fetch : String → Except String PipedData)
    (video_url_or_id : String) (pc pk : List String) : Except String String :=
  match extract_video_id video_url_or_id with
  | none => .error ("Could not extract video ID from: " ++ video_url_or_id)
  | some vid =>
    match fetch vid with
    | .error e => .error e
    | .ok data => get_best_from_data data pc pk

/-- The default preference lists of `get_best_piped_url`. -/
def default_prefer_container : List String := ["mp4", "webm"]

/-- The default codec preference list of `get_best_piped_url`. -/
def default_prefer_codecs : List String := ["h264", "av1", "vp9"]

/-! ### `catt_cast_gui/gui.py` — status text parsing helpers -/

/-- Python `str.capitalize`: first character upper-cased, the rest
lower-cased. -/
def pyCapitalize (s : String) : String :=
  match s.data with
  | [] => ""
  | c :: rest => String.mk (c.toUpper :: rest.map Char.toLower)

/-- Two-digit zero padding used by `format_time`'s `f"{h:02}"`. -/
def pad2 (n : Int) : String :=
  if n < 10 then "0" ++ toString n else toString n

/-- `format_time` from `gui.py`. -/
def format_time (seconds : Int) : String :=
  if seconds < 0 then "00:00:00"
  else
    let h := seconds / 3600
    let m := (seconds % 3600) / 60
    let s := seconds % 60
    pad2 h ++ ":" ++ pad2 m ++ ":" ++ pad2 s

/-- The parsed status dictionary: keys lower-cased, later lines override
earlier ones (Python `dict` assignment). -/
abbrev StatusData := List (String × String)

/-- Insert with override, preserving first-insertion order like a Python
`dict`. -/
def dinsert (d : StatusData) (k v : String) : StatusData :=
  if d.any (fun p => p.1 == k) then d.map (fun p => if p.1 == k then (k, v) else p)
  else d ++ [(k, v)]

/-- The status-parsing loop at the top of `handle_status_update`:
each line containing `": "` contributes `key.strip().lower() → value.strip()`. -/
def parse_status_output (output : String) : StatusData :=
  (pySplit "\n" (pyStrip output)).foldl (fun d line =>
    match splitOnce ": " line with
    | none => d
    | some (k, v) => dinsert d (pyLower (pyStrip k)) (pyStrip v)) []

/-- `h, m, s = map(int, x.split(":"))` followed by `h*3600 + m*60 + s`;
`none` models the caught `ValueError` (wrong arity or non-integer part). -/
def parseHMS (x : String) : Option Int :=
  match (pySplit ":" x).map pyInt with
  | [some h, some m, some s] => some (h * 3600 + m * 60 + s)
  | _ => none

/-- The `time` field parser inside `handle_status_update` (lines 820-833):
`"H:MM:SS[ / H:MM:SS]"`, elapsed first, then optional total duration.  A
`ValueError` while parsing the first component leaves both unset; one
while parsing the second leaves only the duration unset (the exception is
raised after `current_time` was assigned). -/
def parseTimeField (t : String) : Option Int × Option Int :=
  match pySplit " / " t with
  | [] => (none, none)
  | ts :: rest =>
    match parseHMS ts with
    | none => (none, none)
    | some ct =>
      match rest with
      | [] => (some ct, none)
      | d :: _ =>
        match parseHMS ((pySplit " " d).headD "") with
        | none => (some ct, none)
        | some du => (some ct, some du)

/-! ### `catt_cast_gui/gui.py` — application state

`GuiState` collects the `CattQtNG` attributes and the widget state the
claims observe.  `inflight` models `self.thread`/`self.worker` holding a
running `CattWorker`; `pipedRunning` models the same thread slot holding a
running `PipedWorker`. -/

/-- One `catt` invocation request as assembled by `run_catt_command`. -/
structure CattCmd where
  args : List String
  disableUi : Bool
  isLocalCast : Bool
deriving DecidableEq, Repr

/-- The `cast_mode` of a pending Piped resolution (`'cast'` or `'add'`). -/
inductive CastMode
  | cast
  | add
deriving DecidableEq, Repr

/-- `self._pending_piped_cast_info`. -/
structure PendingPiped where
  deviceIp : String
  mode : CastMode
  url : Option String
deriving DecidableEq, Repr

structure GuiState where
  device : Option String
  deviceName : String
  inflight : Option CattCmd
  pipedRunning : Bool
  pendingPiped : Option PendingPiped
  localCast : Option Nat
  isCasting : Bool
  statusTimerOn : Bool
  postTimerOn : Bool
  playbackTimerOn : Bool
  attempts : Nat
  localCurrentTime : Int
  localDuration : Int
  statusLabel : String
  timeLabel : String
  durationLabel : String
  playPauseText : String
  sliderValue : Int
  sliderMax : Int
  sliderEnabled : Bool
  volumeSlider : Int
  muteIconMuted : Bool
  controlsEnabled : Bool
  playbackControlsEnabled : Bool
deriving DecidableEq, Repr

/-- The state `CattQtNG.__init__` and `initUI` establish. -/
def initState : GuiState :=
  { device := none, deviceName := "", inflight := none, pipedRunning := false,
    pendingPiped := none, localCast := none, isCasting := false,
    statusTimerOn := false, postTimerOn := false, playbackTimerOn := false,
    attempts := 0, localCurrentTime := 0, localDuration := 0,
    statusLabel := "Welcome!", timeLabel := "00:00:00", durationLabel := "00:00:00",
    playPauseText := "Play/Pause", sliderValue := 0, sliderMax := 1,
    sliderEnabled := false, volumeSlider := 0, muteIconMuted := false,
    controlsEnabled := true, playbackControlsEnabled := false }

/-- Is the shared worker-thread slot occupied
(`self.thread and self.thread.isRunning()`)? -/
def busy (s : GuiState) : Bool := s.inflight.isSome || s.pipedRunning

/-- `get_selected_device_ip`: returns the selected address; when nothing
is selected it also writes a status message (the two "no device" messages
are collapsed into one here). -/
def get_selected_device_ip (s : GuiState) : Option String × GuiState :=
  match s.device with
  | some ip => (some ip, s)
  | none => (none, { s with statusLabel := "No device selected." })

/-- `set_playback_controls_enabled` (the progress slider is among the
controls it toggles). -/
def set_playback_controls_enabled (b : Bool) (s : GuiState) : GuiState :=
  { s with playbackControlsEnabled := b, sliderEnabled := b }

/-- `update_control_states`. -/
def update_control_states (s : GuiState) : GuiState :=
  let (ip, s1) := get_selected_device_ip s
  let en := ip.isSome && s1.isCasting
  set_playback_controls_enabled en s1

/-- `set_controls_enabled`. -/
def set_controls_enabled (b : Bool) (s : GuiState) : GuiState :=
  if b then update_control_states { s with controlsEnabled := true }
  else set_playback_controls_enabled false { s with controlsEnabled := false }

/-- `reset_playback_ui`. -/
def reset_playback_ui (s : GuiState) : GuiState :=
  let s1 := set_playback_controls_enabled false s
  { s1 with playPauseText := "Play/Pause", timeLabel := "00:00:00",
            localCurrentTime := 0, durationLabel := "00:00:00",
            sliderValue := 0, sliderMax := 1, volumeSlider := 0 }

/-- `_set_idle_state` (note the redundant-update guard at its top). -/
def set_idle_state (msg : String) (s : GuiState) : GuiState :=
  if s.isCasting = false ∧ s.statusLabel = msg then s
  else
    let s1 := { s with isCasting := false, statusTimerOn := false, playbackTimerOn := false }
    let s2 := reset_playback_ui s1
    update_control_states { s2 with statusLabel := msg }

/-- `run_catt_command`: the busy check, then thread/worker creation.  The
second component lists the subprocess invocations actually started. -/
def run_catt_command (s : GuiState) (c : CattCmd) : GuiState × List CattCmd :=
  if busy s then
    if c.disableUi = false then (s, [])
    else ({ s with statusLabel := "An operation is already in progress." }, [])
  else
    let s1 := if c.disableUi then set_controls_enabled false s else s
    ({ s1 with inflight := some c }, [c])

/-- The completion of the in-flight worker: `worker.finished` re-enables
the controls (for UI-disabling commands) and `_on_thread_finished` clears
the thread/worker references. -/
def finish_inflight (s : GuiState) : GuiState :=
  match s.inflight with
  | none => s
  | some c =>
    let s1 := { s with inflight := none }
    if c.disableUi then set_controls_enabled true s1 else s1

/-- `request_status_update`. -/
def request_status_update (s : GuiState) : GuiState × List CattCmd :=
  match get_selected_device_ip s with
  | (none, s1) => (s1, [])
  | (some ip, s1) =>
    run_catt_command s1 { args := ["-d", ip, "status"], disableUi := false, isLocalCast := false }

/-- `_poll_status_after_cast`. -/
def poll_status_after_cast (s : GuiState) : GuiState × List CattCmd :=
  let s1 := { s with attempts := s.attempts + 1 }
  if s1.attempts > 5 then
    (set_idle_state "Action sent, but status is unknown." { s1 with postTimerOn := false }, [])
  else request_status_update s1

/-- `_start_fast_poll`: stop the regular timers, arm the fast-poll timer
with a zeroed attempt counter, and fire one poll immediately. -/
def start_fast_poll (msg : String) (s : GuiState) : GuiState × List CattCmd :=
  poll_status_after_cast
    { s with statusLabel := msg, statusTimerOn := false, playbackTimerOn := false,
             attempts := 0, postTimerOn := true }

/-- The `time`-field lookup feeding the progress section (`(none, none)`
when the key is absent). -/
def status_time_info (d : StatusData) : Option Int × Option Int :=
  match d.lookup "time" with
  | some t => parseTimeField t
  | none => (none, none)

/-- The tail of `handle_status_update`'s title branch (player state, label,
play/pause text, volume, mute icon, time/progress handling); `was_casting`
is the `is_casting` value captured at entry. -/
def handle_status_title_tail (d : StatusData) (title : String) (was_casting : Bool)
    (s2 : GuiState) : GuiState :=
  let player_state := pyCapitalize ((d.lookup "state").getD "UNKNOWN")
  let s3 := { s2 with statusLabel := player_state ++ ": " ++ title }
  let s4 :=
    if player_state == "Playing" then
      { s3 with playPauseText := "Pause", playbackTimerOn := true }
    else if player_state == "Paused" then
      { s3 with playPauseText := "Play", playbackTimerOn := false }
    else { s3 with playPauseText := "Play/Pause", playbackTimerOn := false }
  let volume := (pyInt ((d.lookup "volume").getD "0")).getD 0
  let muted := pyLower ((d.lookup "volume muted").getD "False") == "true"
  let s5 := { s4 with volumeSlider := volume, muteIconMuted := muted }
  if (status_time_info d).2.getD 0 ≤ 0 then
    let s6 := { s5 with localDuration := 0 }
    let s7 := if was_casting = false then { s6 with localCurrentTime := 0 } else s6
    let s8 := { s7 with sliderEnabled := false, durationLabel := "Stream" }
    { s8 with timeLabel := format_time s8.localCurrentTime }
  else
    let dur := (status_time_info d).2.getD 0
    let ct := (status_time_info d).1.getD 0
    let s6 := { s5 with localDuration := dur, localCurrentTime := ct,
                        sliderEnabled := true, sliderMax := dur, sliderValue := ct,
                        durationLabel := format_time dur }
    { s6 with timeLabel := format_time s6.localCurrentTime }

/-- The state updates at the top of the title branch: cancel the fast-poll
timer, and on an idle-to-casting transition refresh the control states and
start the slow resync timer. -/
def status_title_entry (s : GuiState) : GuiState :=
  let s1 := if s.postTimerOn then { s with postTimerOn := false } else s
  if s1.isCasting = false then
    { (update_control_states { s1 with isCasting := true }) with statusTimerOn := true }
  else s1

/-- `handle_status_update` on an already-parsed status dictionary. -/
def handle_status_data (s : GuiState) (d : StatusData) : GuiState :=
  match d.lookup "title" with
  | none =>
    if s.postTimerOn then s
    else
      match d.lookup "volume" with
      | some v =>
        let s1 := set_idle_state "Idle. Ready to cast." s
        { s1 with volumeSlider := (pyInt v).getD 0 }
      | none => set_idle_state "Device is idle or not responding." s
  | some title => handle_status_title_tail d title s.isCasting (status_title_entry s)

/-- `handle_status_update` on the raw status text. -/
def handle_status_update (s : GuiState) (output : String) : GuiState :=
  handle_status_data s (parse_status_output output)

/-- `update_local_progress` (the 1-second local progress ticker body). -/
def update_local_progress (s : GuiState) : GuiState :=
  if s.isCasting = false then { s with playbackTimerOn := false }
  else
    let t := s.localCurrentTime + 1
    let s1 := { s with localCurrentTime := t, timeLabel := format_time t, sliderValue := t }
    if s.localDuration > 0 ∧ t ≥ s.localDuration then { s1 with playbackTimerOn := false }
    else s1

/-- One firing opportunity of the 1-second playback timer: the body runs
only while the timer is active. -/
def playback_tick (s : GuiState) : GuiState :=
  if s.playbackTimerOn then update_local_progress s else s

/-! ### Detached local-cast process lifecycle (C2)

OS-level view of the detached `catt cast <file>` processes.  Each live
process is one entry of `alive`, whose value is the id of the process
group (`start_new_session=True`) it belongs to; `handle` is
`self.local_cast_process`.  `os.killpg` removes every member of the
handle's group at once. -/

structure ProcState where
  handle : Option Nat
  alive : List Nat
  next : Nat
deriving DecidableEq, Repr

/-- `kill_local_cast_process`: no-op without a handle, otherwise terminate
the handle's whole process group and clear the handle (a group that
already exited just yields `ProcessLookupError`, which is swallowed). -/
def kill_local_cast_process (s : ProcState) : ProcState :=
  match s.handle with
  | none => s
  | some g => { s with handle := none, alive := s.alive.filter (fun p => p != g) }

/-- Launch of a fresh detached local-cast process
(`subprocess.Popen(..., start_new_session=True)` plus
`handle_process_created`). -/
def spawn_local (s : ProcState) : ProcState :=
  { handle := some s.next, alive := s.next :: s.alive, next := s.next + 1 }

/-- The operations of the GUI that touch the detached process, plus the
spontaneous OS events. -/
inductive CastEvent
  | castLocal      -- `cast_media` on a local file, channel free: kill then spawn
  | castLocalBusy  -- `cast_media` on a local file, busy-rejected after the kill
  | castRemote     -- `cast_media` on a URL: no kill, no detached spawn
  | stopCast       -- `stop_media`
  | shutdown       -- `closeEvent`
  | childSpawned   -- the running catt process forks a child in its group
  | earlyExit      -- a process of the detached cast exits by itself
deriving DecidableEq, Repr

def proc_step (s : ProcState) : CastEvent → ProcState
  | .castLocal => spawn_local (kill_local_cast_process s)
  | .castLocalBusy => kill_local_cast_process s
  | .castRemote => s
  | .stopCast => kill_local_cast_process s
  | .shutdown => kill_local_cast_process s
  | .childSpawned =>
    match s.alive with
    | [] => s
    | g :: _ => { s with alive := g :: s.alive }
  | .earlyExit =>
    match s.alive with
    | [] => s
    | _ :: rest => { s with alive := rest }

/-- Run a sequence of events from the application's initial state. -/
def proc_run (evs : List CastEvent) : ProcState :=
  evs.foldl proc_step { handle := none, alive := [], next := 0 }

/-- Every live detached process belongs to the group the handle points
at. -/
def proc_inv (s : ProcState) : Prop :=
  ∀ g ∈ s.alive, s.handle = some g

/-! ### `CattWorker._run_local_cast` (C8) -/

/-- The completion signals a `CattWorker` can emit. -/
inductive LocalCastSignal
  | processCreated
  | resultSig (msg : String)
  | errorSig (msg : String)
  | finishedSig
deriving DecidableEq, Repr

/-- What the spawned process did during the 3-second grace window. -/
inductive LocalCastOutcome
  | toolMissing                          -- FileNotFoundError from Popen
  | exitedEarly (rc : Int) (stderr : String)  -- process.wait(timeout=3) returned
  | stillRunning                         -- subprocess.TimeoutExpired
deriving DecidableEq, Repr

/-- `stderr.strip() or f"catt command failed with exit code {return_code}"`. -/
def local_cast_fail_msg (rc : Int) (stderr : String) : String :=
  if pyStrip stderr ≠ "" then pyStrip stderr
  else "catt command failed with exit code " ++ toString rc

/-- `_run_local_cast`: the exact signal sequence emitted for each
outcome. -/
def run_local_cast (o : LocalCastOutcome) : List LocalCastSignal :=
  match o with
  | .toolMissing =>
    [.errorSig "'catt' command not found. Is it installed and in your PATH?", .finishedSig]
  | .exitedEarly rc stderr =>
    [.processCreated, .errorSig (local_cast_fail_msg rc stderr), .finishedSig]
  | .stillRunning =>
    [.processCreated, .resultSig "Casting local file in background...", .finishedSig]

def is_finished_sig : LocalCastSignal → Bool
  | .finishedSig => true
  | _ => false

def is_result_sig : LocalCastSignal → Bool
  | .resultSig _ => true
  | _ => false

/-! ### Piped resolution flow (C9) -/

/-- `handle_piped_error`. -/
def handle_piped_error (msg : String) (s : GuiState) : GuiState :=
  set_controls_enabled true
    { s with statusLabel := "Piped Error: " ++ msg, pendingPiped := none }

/-- `_on_piped_thread_finished`: consume the pending record and, when a
URL was found, start the corresponding catt worker. -/
def on_piped_thread_finished (s : GuiState) : GuiState × List CattCmd :=
  let s0 := { s with pipedRunning := false }
  match s0.pendingPiped with
  | none => (s0, [])
  | some info =>
    let s1 := { s0 with pendingPiped := none }
    match info.url with
    | none => (s1, [])
    | some url =>
      match info.mode with
      | .cast =>
        let s2 := { s1 with localCast := none,
                            statusLabel := "Casting to " ++ s1.deviceName ++ "..." }
        run_catt_command s2
          { args := ["-d", info.deviceIp, "cast", url], disableUi := true, isLocalCast := false }
      | .add =>
        let s2 := { s1 with statusLabel := "Enqueuing on " ++ s1.deviceName ++ "..." }
        run_catt_command s2
          { args := ["-d", info.deviceIp, "add", url], disableUi := true, isLocalCast := false }

/-- `_get_url_from_piped_and_run` past its busy check: create the pending
record, disable the controls and start the `PipedWorker` thread. -/
def start_piped_fetch (ip : String) (mode : CastMode) (s : GuiState) : GuiState :=
  let s1 := { s with pendingPiped := some { deviceIp := ip, mode := mode, url := none } }
  { (set_controls_enabled false s1) with pipedRunning := true }

/-- `_get_url_from_piped_and_run` including its busy check. -/
def get_url_from_piped_and_run (ip : String) (mode : CastMode) (s : GuiState) : GuiState :=
  if busy s then { s with statusLabel := "An operation is already in progress." }
  else start_piped_fetch ip mode s

/-- A whole failed resolution attempt: `cast_media`/`enqueue_media` set the
"Getting direct URL from Piped..." label and start the fetch; the worker
emits `error` (handled by `handle_piped_error`) and then `finished`
(handled by `_on_piped_thread_finished`). -/
def piped_flow_error (ip : String) (mode : CastMode) (errMsg : String) (s : GuiState) :
    GuiState × List CattCmd :=
  let s1 := get_url_from_piped_and_run ip mode
    { s with statusLabel := "Getting direct URL from Piped..." }
  let s2 := handle_piped_error errMsg s1
  on_piped_thread_finished s2

/-- The believed playback state of the device session (the fields claim C9
calls "playback state": the casting flag, the three timers, the fast-poll
attempt counter, believed position/duration, believed volume and mute). -/
structure PlaybackView where
  isCasting : Bool
  statusTimerOn : Bool
  postTimerOn : Bool
  playbackTimerOn : Bool
  attempts : Nat
  localCurrentTime : Int
  localDuration : Int
  volumeSlider : Int
  muteIconMuted : Bool
deriving DecidableEq, Repr

def playback_view (s : GuiState) : PlaybackView :=
  { isCasting := s.isCasting, statusTimerOn := s.statusTimerOn,
    postTimerOn := s.postTimerOn, playbackTimerOn := s.playbackTimerOn,
    attempts := s.attempts, localCurrentTime := s.localCurrentTime,
    localDuration := s.localDuration, volumeSlider := s.volumeSlider,
    muteIconMuted := s.muteIconMuted }

/-! ### Confirming cycle runs (C3)

Between consecutive firings of the 3-second fast-poll timer the issued
status poll completes: its `result` signal is handled by
`handle_status_update` and its `finished` signal releases the command
channel.  `confirm_step` is one timer firing followed by that
settlement. -/

/-- Settle an issued status poll with response data `d`. -/
def settle_poll (d : StatusData) (s : GuiState) : GuiState :=
  if s.inflight.isSome then finish_inflight (handle_status_data s d) else s

/-- One fast-poll timer firing opportunity (fires only while armed). -/
def fast_tick (s : GuiState) : GuiState × List CattCmd :=
  if s.postTimerOn then poll_status_after_cast s else (s, [])

/-- One timer firing plus poll settlement, threading the count of issued
status polls. -/
def confirm_step (d : StatusData) (sn : GuiState × Nat) : GuiState × Nat :=
  let r := fast_tick sn.1
  (settle_poll d r.1, sn.2 + r.2.length)

/-- Drive the confirming cycle through one settled response per timer
firing. -/
def confirm_run (ds : List StatusData) (sn : GuiState × Nat) : GuiState × Nat :=
  ds.foldl (fun acc d => confirm_step d acc) sn

/-- Arm the cycle (`_start_fast_poll`) and settle its immediate poll with
response `d0`. -/
def arm_confirm (msg : String) (d0 : StatusData) (s : GuiState) : GuiState × Nat :=
  let r := start_fast_poll msg s
  (settle_poll d0 r.1, r.2.length)

/-- The state `_start_fast_poll` builds before firing its immediate poll. -/
def armed_state (msg : String) (s : GuiState) : GuiState :=
  { s with statusLabel := msg, statusTimerOn := false, playbackTimerOn := false,
           attempts := 0, postTimerOn := true }

/-! ### Score ordering and first-maximum selection (C5) -/

theorem scoreLt_irrefl (a : Score4) : ¬ scoreLt a a := by
  unfold scoreLt; omega

theorem scoreLt_asymm {a b : Score4} (h : scoreLt a b) : ¬ scoreLt b a := by
  unfold scoreLt at *; omega

theorem scoreLt_trans {a b c : Score4} (h1 : scoreLt a b) (h2 : scoreLt b c) : scoreLt a c := by
  unfold scoreLt at *; omega

theorem scoreLt_of_not_of_lt {c x r : Score4} (h1 : ¬ scoreLt c x) (h2 : scoreLt c r) :
    scoreLt x r := by
  unfold scoreLt at *; omega

theorem scoreLt_of_lt_of_not {r x c : Score4} (h1 : scoreLt r x) (h2 : ¬ scoreLt c x) :
    scoreLt r c := by
  unfold scoreLt at *; omega

theorem first_max_fold_nil (c : Score4 × String) : first_max_fold c [] = c := rfl

theorem first_max_fold_cons (c x : Score4 × String) (l : List (Score4 × String)) :
    first_max_fold c (x :: l) = first_max_fold (if scoreLt c.1 x.1 then x else c) l := rfl

theorem first_max_fold_split (l : List (Score4 × String)) :
    ∀ c : Score4 × String, ∃ P S,
      c :: l = P ++ first_max_fold c l :: S ∧
      (∀ y ∈ P, scoreLt y.1 (first_max_fold c l).1) ∧
      (∀ y ∈ S, ¬ scoreLt (first_max_fold c l).1 y.1) := by
  induction l with
  | nil =>
    intro c
    exact ⟨[], [], rfl, by simp, by simp⟩
  | cons x t ih =>
    intro c
    rw [first_max_fold_cons]
    by_cases h : scoreLt c.1 x.1
    · rw [if_pos h]
      obtain ⟨P', S', heq, hP, hS⟩ := ih x
      set r := first_max_fold x t with hr
      cases P' with
      | nil =>
        simp only [List.nil_append] at heq
        have hrx : r = x := (List.cons_eq_cons.mp heq).1.symm
        refine ⟨[c], S', ?_, ?_, hS⟩
        · rw [List.singleton_append, ← heq]
        · intro y hy
          rcases List.mem_singleton.mp hy with rfl
          rw [hrx]; exact h
      | cons p P'' =>
        have hpx : x = p := (List.cons_eq_cons.mp heq).1
        have h2 : t = P'' ++ r :: S' := (List.cons_eq_cons.mp heq).2
        subst hpx
        refine ⟨c :: x :: P'', S', ?_, ?_, hS⟩
        · rw [h2]; rfl
        · intro y hy
          have hx : scoreLt x.1 r.1 := hP x (List.mem_cons_self _ _)
          rcases List.mem_cons.mp hy with rfl | hy'
          · exact scoreLt_trans h hx
          · rcases List.mem_cons.mp hy' with rfl | hy''
            · exact hx
            · exact hP y (List.mem_cons_of_mem _ hy'')
    · rw [if_neg h]
      obtain ⟨P', S', heq, hP, hS⟩ := ih c
      set r := first_max_fold c t with hr
      cases P' with
      | nil =>
        simp only [List.nil_append] at heq
        have hrc : r = c := (List.cons_eq_cons.mp heq).1.symm
        have hS'' : S' = t := (List.cons_eq_cons.mp heq).2.symm
        refine ⟨[], x :: t, by rw [hrc, List.nil_append], by simp, ?_⟩
        intro y hy
        rcases List.mem_cons.mp hy with rfl | hy'
        · rw [hrc]; exact h
        · exact hS y (by rw [hS'']; exact hy')
      | cons p P'' =>
        have hpc : c = p := (List.cons_eq_cons.mp heq).1
        have h2 : t = P'' ++ r :: S' := (List.cons_eq_cons.mp heq).2
        subst hpc
        refine ⟨c :: x :: P'', S', ?_, ?_, hS⟩
        · rw [h2]; rfl
        · intro y hy
          have hc : scoreLt c.1 r.1 := hP c (List.mem_cons_self _ _)
          rcases List.mem_cons.mp hy with rfl | hy'
          · exact hc
          · rcases List.mem_cons.mp hy' with rfl | hy''
            · exact scoreLt_of_not_of_lt h hc
            · exact hP y (List.mem_cons_of_mem _ hy'')

def spec_rank_aux (matchp : String → Bool) : List String → Nat → Nat → Nat
  | [], _, _ => 0
  | p :: rest, total, i => if matchp p then total - i else spec_rank_aux matchp rest total (i + 1)

def spec_rank (matchp : String → Bool) (l : List String) : Nat :=
  spec_rank_aux matchp l l.length 0

theorem pref_score_aux_eq_spec (isCodec : Bool) (val : String) :
    ∀ (l : List String) (total i : Nat), (∀ p ∈ l, norm p ≠ "") →
      pref_score_aux isCodec val l total i =
        spec_rank_aux (fun p => if isCodec then strStartsWith val (norm p) else val == norm p)
          l total i := by
  intro l
  induction l with
  | nil => intro total i _; rfl
  | cons p rest ih =>
    intro total i hne
    have hp : norm p ≠ "" := hne p (List.mem_cons_self _ _)
    have hp' : (norm p == "") = false := by
      simpa using hp
    unfold pref_score_aux spec_rank_aux
    simp only [hp', Bool.false_eq_true, if_false]
    by_cases hm : (if isCodec then strStartsWith val (norm p) else val == norm p) = true
    · simp [hm]
    · simp only [Bool.not_eq_true] at hm
      simp [hm, ih total (i + 1) (fun q hq => hne q (List.mem_cons_of_mem _ hq))]

def spec_first_lex_max (l : List (Score4 × String)) : Option (Score4 × String) :=
  l.find? (fun x => l.all (fun y => !(decide (scoreLt x.1 y.1))))

theorem find?_append_of_false {α : Type} {p : α → Bool} :
    ∀ (P rest : List α), (∀ y ∈ P, p y = false) → (P ++ rest).find? p = rest.find? p := by
  intro P
  induction P with
  | nil => intro rest _; rfl
  | cons a P' ih =>
    intro rest hfa
    rw [List.cons_append, List.find?_cons_of_neg, ih rest (fun y hy => hfa y (List.mem_cons_of_mem _ hy))]
    simp [hfa a (List.mem_cons_self _ _)]

theorem spec_first_lex_max_cons (c : Score4 × String) (l : List (Score4 × String)) :
    spec_first_lex_max (c :: l) = some (first_max_fold c l) := by
  obtain ⟨P, S, heq, hP, hS⟩ := first_max_fold_split l c
  set r := first_max_fold c l with hr
  have hmax : ∀ y ∈ c :: l, ¬ scoreLt r.1 y.1 := by
    intro y hy
    rw [heq] at hy
    rcases List.mem_append.mp hy with hyP | hyRS
    · exact scoreLt_asymm (hP y hyP)
    · rcases List.mem_cons.mp hyRS with rfl | hyS
      · exact scoreLt_irrefl _
      · exact hS y hyS
  have hpredr : ((c :: l).all (fun y => !(decide (scoreLt r.1 y.1)))) = true := by
    rw [List.all_eq_true]
    intro y hy
    simpa using hmax y hy
  have hpredP : ∀ y ∈ P, ((c :: l).all (fun z => !(decide (scoreLt y.1 z.1)))) = false := by
    intro y hy
    rw [← Bool.not_eq_true, List.all_eq_true]
    intro hall
    have hrmem : r ∈ c :: l := by
      rw [heq]; exact List.mem_append.mpr (Or.inr (List.mem_cons_self _ _))
    have := hall r hrmem
    simp only [Bool.not_eq_true', decide_eq_false_iff_not] at this
    exact this (hP y hy)
  unfold spec_first_lex_max
  conv_lhs => rw [heq]
  rw [find?_append_of_false P (r :: S) (fun y hy => by
    have := hpredP y hy
    rw [heq] at this
    exact this)]
  rw [List.find?_cons_of_pos]
  rw [heq] at hpredr
  exact hpredr

theorem pick_best_eq_spec_first_lex_max (data : PipedData) (pc pk : List String) :
    pick_best_progressive data pc pk =
      (spec_first_lex_max (progressive_candidates data.videoStreams pc pk)).map
        (fun z => z.2) := by
  unfold pick_best_progressive
  cases hc : progressive_candidates data.videoStreams pc pk with
  | nil => rfl
  | cons c rest => rw [spec_first_lex_max_cons]; rfl

def exStreamWebm : PStream :=
  { url := some "https://example.invalid/webm-1080.webm", videoOnly := false,
    container := some "webm", format := none, codec := some "vp9", codecs := none,
    height := some 1080, bitrate := some 5000 }

def exStreamMp4 : PStream :=
  { url := some "https://example.invalid/mp4-720.mp4", videoOnly := false,
    container := some "mp4", format := none, codec := some "h264", codecs := none,
    height := some 720, bitrate := some 3000 }

def examplePipedData : PipedData :=
  { videoStreams := [exStreamWebm, exStreamMp4], hls := none, dash := none }

/-- Claim C5: every progressive candidate (truthy url, not videoOnly) is
scored by the 4-tuple (container rank, codec rank by prefix match, height,
bitrate) with rank `len(list) - index` for the first match and 0 otherwise
(stated for preference lists whose entries normalise non-empty, as every
caller supplies); the pick is the candidate with the lexicographically
greatest tuple, ties broken by input order (first maximum); the spec's
example candidates [webm/vp9/1080/5000, mp4/h264/720/3000] with preferences
containers=[mp4,webm], codecs=[h264,av1,vp9] select the mp4/h264 candidate;
with no progressive candidate the relay's HLS manifest is returned, else
DASH, else the lookup fails. -/
theorem progressive_selection_c5 :
    (∀ (isCodec : Bool) (val : String) (l : List String), (∀ p ∈ l, norm p ≠ "") →
        pref_score isCodec val l =
          spec_rank (fun p => if isCodec then strStartsWith val (norm p) else val == norm p) l) ∧
    (∀ (data : PipedData) (pc pk : List String),
        pick_best_progressive data pc pk =
          (spec_first_lex_max (progressive_candidates data.videoStreams pc pk)).map
            (fun z => z.2)) ∧
    score_progressive exStreamWebm default_prefer_container default_prefer_codecs
        = { c := 1, k := 1, h := 1080, b := 5000 } ∧
    score_progressive exStreamMp4 default_prefer_container default_prefer_codecs
        = { c := 2, k := 3, h := 720, b := 3000 } ∧
    pick_best_progressive examplePipedData default_prefer_container default_prefer_codecs
        = some "https://example.invalid/mp4-720.mp4" ∧
    (∀ (data : PipedData) (pc pk : List String) (u : String),
        pick_best_progressive data pc pk = some u → get_best_from_data data pc pk = .ok u) ∧
    (∀ (data : PipedData) (pc pk : List String),
        pick_best_progressive data pc pk = none →
          get_best_from_data data pc pk =
            (if pyTruthyStr data.hls then .ok (data.hls.getD "")
             else if pyTruthyStr data.dash then .ok (data.dash.getD "")
             else .error
               "No suitable stream URL found (no progressive/HLS/DASH available).")) := by
  refine ⟨?_, pick_best_eq_spec_first_lex_max, by decide, by decide, by decide, ?_, ?_⟩
  · intro isCodec val l hne
    unfold pref_score spec_rank
    exact pref_score_aux_eq_spec isCodec val l l.length 0 hne
  · intro data pc pk u h
    unfold get_best_from_data
    rw [h]
  · intro data pc pk h
    unfold get_best_from_data
    rw [h]

/-- Witness for C5: the container rank of "mp4" under the default
preferences, and the HLS fallback on a concrete relay response with no
progressive stream. -/
theorem progressive_selection_c5_witness :
    pref_score false "mp4" default_prefer_container =
      spec_rank (fun p => if false then strStartsWith "mp4" (norm p) else "mp4" == norm p)
        default_prefer_container ∧
    get_best_from_data { videoStreams := [], hls := some "https://h/x.m3u8", dash := none }
        default_prefer_container default_prefer_codecs = .ok "https://h/x.m3u8" := by
  constructor
  · exact progressive_selection_c5.1 false "mp4" default_prefer_container (by decide)
  · rw [progressive_selection_c5.2.2.2.2.2.2
      { videoStreams := [], hls := some "https://h/x.m3u8", dash := none }
      default_prefer_container default_prefer_codecs (by decide)]
    rfl

/-- Claim C6: identifier extraction returns a bare 11-character token of
alphanumerics, dashes or underscores unchanged; the first path segment for a youtu.be
short link; the `v` query parameter or the /shorts/<id> segment for a
recognized long-form URL; and none for any other input — with the three
concrete examples all yielding dQw4w9WgXcQ, "not a url" yielding none, and
the resolution path never invoked for it (the fetch oracle is never
consulted). -/
theorem extract_video_id_c6 :
    (∀ arg : String, isBareVideoId arg = true → extract_video_id arg = some arg) ∧
    (∀ arg : String, isBareVideoId arg = false →
        (urlparse arg).netloc ≠ "" →
        strEndsWith (urlparse arg).netloc "youtu.be" = true →
        extract_video_id arg =
          (if (firstPathSegment (urlparse arg).path == "") = true then none
           else some (firstPathSegment (urlparse arg).path))) ∧
    (∀ arg : String, isBareVideoId arg = false →
        (urlparse arg).netloc ≠ "" →
        strEndsWith (urlparse arg).netloc "youtu.be" = false →
        (strContains (urlparse arg).netloc "youtube.com" ||
         strContains (urlparse arg).netloc "youtube-nocookie.com" ||
         strContains (urlparse arg).netloc PIPED_INSTANCE) = true →
        extract_video_id arg =
          (match parse_qs_v (urlparse arg).query with
           | some v => some v
           | none =>
             match (pySplit "/" (urlparse arg).path).filter (fun p => p ≠ "") with
             | p0 :: p1 :: _ => if p0 == "shorts" then some p1 else none
             | _ => none)) ∧
    (∀ arg : String, isBareVideoId arg = false → (urlparse arg).netloc = "" →
        extract_video_id arg = none) ∧
    (∀ arg : String, isBareVideoId arg = false →
        (urlparse arg).netloc ≠ "" →
        strEndsWith (urlparse arg).netloc "youtu.be" = false →
        (strContains (urlparse arg).netloc "youtube.com" ||
         strContains (urlparse arg).netloc "youtube-nocookie.com" ||
         strContains (urlparse arg).netloc PIPED_INSTANCE) = false →
        extract_video_id arg = none) ∧
    extract_video_id "https://youtu.be/dQw4w9WgXcQ" = some "dQw4w9WgXcQ" ∧
    extract_video_id "https://youtube.com/watch?v=dQw4w9WgXcQ" = some "dQw4w9WgXcQ" ∧
    extract_video_id "dQw4w9WgXcQ" = some "dQw4w9WgXcQ" ∧
    extract_video_id "not a url" = none ∧
    (∀ (fetch : String → Except String PipedData) (pc pk : List String),
        get_best_piped_url fetch "not a url" pc pk =
          .error "Could not extract video ID from: not a url") := by
  refine ⟨?_, ?_, ?_, ?_, ?_, by decide, by decide, by decide, by decide, ?_⟩
  · intro arg hb
    unfold extract_video_id
    simp [hb]
  · intro arg hb hnet hyb
    unfold extract_video_id
    simp [hb, hnet, hyb]
  · intro arg hb hnet hyb hfam
    unfold extract_video_id
    simp [hb, hnet, hyb, hfam]
  · intro arg hb hnet
    unfold extract_video_id
    simp [hb, hnet]
  · intro arg hb hnet hyb hfam
    unfold extract_video_id
    simp [hb, hnet, hyb, hfam]
  · intro fetch pc pk
    have h : extract_video_id "not a url" = none := by decide
    unfold get_best_piped_url
    rw [h]
    rfl

/-- Witness for C6: the short-link clause applied at the spec's concrete
youtu.be example. -/
theorem extract_video_id_c6_witness :
    extract_video_id "https://youtu.be/dQw4w9WgXcQ" =
      (if (firstPathSegment (urlparse "https://youtu.be/dQw4w9WgXcQ").path == "") = true then none
       else some (firstPathSegment (urlparse "https://youtu.be/dQw4w9WgXcQ").path)) :=
  extract_video_id_c6.2.1 "https://youtu.be/dQw4w9WgXcQ" (by decide) (by decide) (by decide)

/-! ### C1: the busy check -/

/-- Is this command a status poll (`["-d", ip, "status"]`)? -/
def is_status_poll (c : CattCmd) : Bool :=
  match c.args with
  | ["-d", _, "status"] => true
  | _ => false

def c1_busy_state : GuiState :=
  { initState with
    device := some "192.168.1.20",
    inflight := some { args := ["-d", "192.168.1.20", "cast", "http://example.invalid/v.mp4"],
                       disableUi := true, isLocalCast := false } }

def c1_quick_action_cmd : CattCmd :=
  { args := ["-d", "192.168.1.20", "play_toggle"], disableUi := false, isLocalCast := false }

/-- Claim C1 counterexample: a quick transport action (`play_toggle`) is a
non-polling command, yet issued while a cast command is in flight it is
silently dropped — the state (including the status label, still
"Welcome!") is unchanged and no subprocess starts — instead of being
rejected with the "An operation is already in progress." message the claim
requires for every non-polling command. -/
theorem busy_rejection_c1_counterexample :
    is_status_poll c1_quick_action_cmd = false ∧
    busy c1_busy_state = true ∧
    run_catt_command c1_busy_state c1_quick_action_cmd = (c1_busy_state, []) ∧
    c1_busy_state.statusLabel = "Welcome!" :=
  ⟨rfl, rfl, rfl, rfl⟩

/-- Claim C1 (amended): while a command is in flight, a new command issued
with UI disabling is rejected with the busy message and no subprocess; a
command issued without UI disabling (status polls, quick transport
actions, volume and seek changes) is silently dropped with no message and
no subprocess; in both cases the in-flight command is left in place and
its completion still fires normally (clearing the channel). -/
theorem busy_rejection_c1_amended (s : GuiState) (c c0 : CattCmd)
    (hin : s.inflight = some c0) :
    (c.disableUi = true →
      run_catt_command s c =
        ({ s with statusLabel := "An operation is already in progress." }, [])) ∧
    (c.disableUi = false → run_catt_command s c = (s, [])) ∧
    (run_catt_command s c).1.inflight = some c0 ∧
    (finish_inflight (run_catt_command s c).1).inflight = none := by
  have hb : busy s = true := by simp [busy, hin]
  have hrun : (run_catt_command s c).1.inflight = some c0 := by
    by_cases hdui : c.disableUi = true
    · simp [run_catt_command, hb, hdui, hin]
    · simp only [Bool.not_eq_true] at hdui
      simp [run_catt_command, hb, hdui, hin]
  refine ⟨?_, ?_, hrun, ?_⟩
  · intro hdui; simp [run_catt_command, hb, hdui]
  · intro hdui; simp [run_catt_command, hb, hdui]
  · rw [finish_inflight, hrun]
    by_cases h0 : c0.disableUi = true
    · simp [h0, set_controls_enabled, update_control_states, get_selected_device_ip,
            set_playback_controls_enabled]
      cases (run_catt_command s c).1.device <;> simp
    · simp only [Bool.not_eq_true] at h0
      simp [h0]

/-- Witness for the amended C1 at a concrete busy state and quick-action
command. -/
theorem busy_rejection_c1_amended_witness :
    run_catt_command c1_busy_state c1_quick_action_cmd = (c1_busy_state, []) ∧
    (finish_inflight (run_catt_command c1_busy_state c1_quick_action_cmd).1).inflight = none := by
  have h := busy_rejection_c1_amended c1_busy_state c1_quick_action_cmd _ rfl
  exact ⟨h.2.1 rfl, h.2.2.2⟩

/-! ### C2: at most one detached local-cast process -/

theorem kill_alive_nil (s : ProcState) (h : proc_inv s) :
    (kill_local_cast_process s).alive = [] := by
  unfold kill_local_cast_process
  cases hh : s.handle with
  | none =>
    cases ha : s.alive with
    | nil => simp [ha]
    | cons a t =>
      have := h a (by rw [ha]; exact List.mem_cons_self _ _)
      rw [hh] at this
      exact absurd this (by simp)
  | some g =>
    simp only
    rw [List.filter_eq_nil_iff]
    intro a ha'
    have := h a ha'
    rw [hh] at this
    injection this with h1
    simp [h1]

theorem proc_step_preserves_inv (s : ProcState) (e : CastEvent) (h : proc_inv s) :
    proc_inv (proc_step s e) := by
  cases e with
  | castLocal =>
    intro g hg
    have hk : (kill_local_cast_process s).alive = [] := kill_alive_nil s h
    simp only [proc_step, spawn_local, hk] at hg ⊢
    rcases List.mem_singleton.mp hg with rfl
    rfl
  | castLocalBusy =>
    intro g hg
    rw [show proc_step s .castLocalBusy = kill_local_cast_process s from rfl,
        kill_alive_nil s h] at hg
    exact absurd hg (List.not_mem_nil g)
  | castRemote => exact h
  | stopCast =>
    intro g hg
    rw [show proc_step s .stopCast = kill_local_cast_process s from rfl,
        kill_alive_nil s h] at hg
    exact absurd hg (List.not_mem_nil g)
  | shutdown =>
    intro g hg
    rw [show proc_step s .shutdown = kill_local_cast_process s from rfl,
        kill_alive_nil s h] at hg
    exact absurd hg (List.not_mem_nil g)
  | childSpawned =>
    intro g hg
    cases ha : s.alive with
    | nil =>
      simp only [proc_step, ha] at hg ⊢
      exact h g (by rw [ha]; exact hg)
    | cons a t =>
      simp only [proc_step, ha] at hg ⊢
      rcases List.mem_cons.mp hg with rfl | hg'
      · exact h g (by rw [ha]; exact List.mem_cons_self _ _)
      · exact h g (by rw [ha]; exact hg')
  | earlyExit =>
    intro g hg
    cases ha : s.alive with
    | nil =>
      simp only [proc_step, ha] at hg ⊢
      exact h g (by rw [ha]; exact hg)
    | cons a t =>
      simp only [proc_step, ha] at hg ⊢
      exact h g (by rw [ha]; exact List.mem_cons_of_mem _ hg)

theorem proc_foldl_inv : ∀ (evs : List CastEvent) (s : ProcState),
    proc_inv s → proc_inv (evs.foldl proc_step s) := by
  intro evs
  induction evs with
  | nil => intro s h; exact h
  | cons e t ih =>
    intro s h
    exact ih (proc_step s e) (proc_step_preserves_inv s e h)

/-- Claim C2: over every sequence of cast/stop/shutdown (and process)
events, every live detached local-cast process belongs to the group the
single handle points at — hence at most one detached local-cast process
group is alive at any time; an operation that starts a new local-file cast
is exactly `spawn_local` after `kill_local_cast_process`; and the kill
removes every member of the handle's process group. -/
theorem single_local_cast_c2 :
    (∀ evs : List CastEvent,
        proc_inv (proc_run evs) ∧
        ∀ g₁ ∈ (proc_run evs).alive, ∀ g₂ ∈ (proc_run evs).alive, g₁ = g₂) ∧
    (∀ s : ProcState, proc_step s .castLocal = spawn_local (kill_local_cast_process s)) ∧
    (∀ (s : ProcState) (g : Nat), s.handle = some g →
        g ∉ (kill_local_cast_process s).alive) := by
  refine ⟨?_, fun s => rfl, ?_⟩
  · intro evs
    have hinv : proc_inv (proc_run evs) :=
      proc_foldl_inv evs _ (by intro g hg; exact absurd hg (List.not_mem_nil g))
    refine ⟨hinv, ?_⟩
    intro g₁ h₁ g₂ h₂
    have e₁ := hinv g₁ h₁
    have e₂ := hinv g₂ h₂
    rw [e₁] at e₂
    exact Option.some.inj e₂
  · intro s g hg
    unfold kill_local_cast_process
    rw [hg]
    simp [List.mem_filter]

/-- Witness for C2 at a concrete event trace and a concrete kill. -/
theorem single_local_cast_c2_witness :
    proc_inv (proc_run
      [CastEvent.castLocal, CastEvent.childSpawned, CastEvent.castLocal, CastEvent.stopCast]) ∧
    (0 : Nat) ∉ (kill_local_cast_process { handle := some 0, alive := [0], next := 1 }).alive :=
  ⟨(single_local_cast_c2.1 _).1, single_local_cast_c2.2.2 _ 0 rfl⟩

/-! ### C8: detached local-cast grace window -/

/-- Claim C8: for every detached local-cast invocation the completion
signal fires exactly once; an exit within the grace window yields the
handle delivery followed by an error carrying the stripped stderr (or the
exit-code message when stderr strips to empty) and no success signal; a
process still running after the window yields the handle delivery and the
"Casting local file in background..." success signal. -/
theorem local_cast_grace_c8 :
    (∀ o : LocalCastOutcome, (run_local_cast o).countP is_finished_sig = 1) ∧
    (∀ (rc : Int) (stderr : String),
        run_local_cast (.exitedEarly rc stderr) =
          [.processCreated, .errorSig (local_cast_fail_msg rc stderr), .finishedSig] ∧
        (run_local_cast (.exitedEarly rc stderr)).countP is_result_sig = 0 ∧
        (pyStrip stderr ≠ "" → local_cast_fail_msg rc stderr = pyStrip stderr) ∧
        (pyStrip stderr = "" →
          local_cast_fail_msg rc stderr = "catt command failed with exit code " ++ toString rc)) ∧
    run_local_cast .stillRunning =
      [.processCreated, .resultSig "Casting local file in background...", .finishedSig] := by
  refine ⟨?_, ?_, rfl⟩
  · intro o; cases o <;> rfl
  · intro rc stderr
    refine ⟨rfl, rfl, ?_, ?_⟩
    · intro h; simp [local_cast_fail_msg, h]
    · intro h; simp [local_cast_fail_msg, h]

/-- Witness for C8: whitespace-only stderr at exit code 1 surfaces the
exit-code message. -/
theorem local_cast_grace_c8_witness :
    run_local_cast (.exitedEarly 1 " ") =
      [.processCreated, .errorSig "catt command failed with exit code 1", .finishedSig] := by
  have h := local_cast_grace_c8.2.1 1 " "
  rw [h.1, h.2.2.2 (by decide)]
  rfl

/-! ### C10: the local progress ticker -/

/-- Invariant carried across playback-timer ticks: constant duration, the
position stays at most the duration while the ticker is armed, and never
more than one past it. -/
def tick_inv (D : Int) (s : GuiState) : Prop :=
  s.localDuration = D ∧
  (s.playbackTimerOn = true → s.localCurrentTime ≤ D) ∧
  s.localCurrentTime ≤ D + 1

theorem playback_tick_preserves (D : Int) (hD : 0 < D) (s : GuiState) (h : tick_inv D s) :
    tick_inv D (playback_tick s) := by
  obtain ⟨hdur, hon, hbound⟩ := h
  unfold playback_tick
  by_cases ht : s.playbackTimerOn = true
  · rw [if_pos ht]
    have hle : s.localCurrentTime ≤ D := hon ht
    unfold update_local_progress
    by_cases hc : s.isCasting = false
    · rw [if_pos hc]
      exact ⟨hdur, fun hx => absurd hx Bool.false_ne_true, hbound⟩
    · rw [if_neg hc]
      by_cases hstop : s.localDuration > 0 ∧ s.localCurrentTime + 1 ≥ s.localDuration
      · rw [if_pos hstop]
        refine ⟨hdur, fun hx => absurd hx Bool.false_ne_true, ?_⟩
        show s.localCurrentTime + 1 ≤ D + 1
        omega
      · rw [if_neg hstop]
        refine ⟨hdur, fun _ => ?_, ?_⟩
        · show s.localCurrentTime + 1 ≤ D
          rcases Classical.em (s.localDuration > 0) with hgt | hle'
          · have : ¬ (s.localCurrentTime + 1 ≥ s.localDuration) := fun hx => hstop ⟨hgt, hx⟩
            omega
          · omega
        · show s.localCurrentTime + 1 ≤ D + 1
          omega
  · rw [if_neg ht]
    exact ⟨hdur, hon, hbound⟩

theorem playback_tick_iter (D : Int) (hD : 0 < D) :
    ∀ (n : Nat) (s : GuiState), tick_inv D s → tick_inv D (playback_tick^[n] s) := by
  intro n
  induction n with
  | zero => intro s h; exact h
  | succ k ih =>
    intro s h
    rw [Function.iterate_succ_apply]
    exact ih (playback_tick s) (playback_tick_preserves D hD s h)

/-- Claim C10: each ticker firing either (session not casting) leaves the
position unchanged while stopping the ticker, or increments the position
by exactly one; with a positive believed duration the ticker stops itself
on the first tick whose incremented position reaches the duration and
keeps running below it; consequently, starting at or below the believed
duration, the locally predicted position never exceeds it by more than one
tick. -/
theorem local_progress_ticker_c10 :
    (∀ s : GuiState, s.isCasting = false →
        update_local_progress s = { s with playbackTimerOn := false }) ∧
    (∀ s : GuiState, s.isCasting = true →
        (update_local_progress s).localCurrentTime = s.localCurrentTime + 1) ∧
    (∀ s : GuiState, s.isCasting = true → s.localDuration > 0 →
        s.localCurrentTime + 1 ≥ s.localDuration →
        (update_local_progress s).playbackTimerOn = false) ∧
    (∀ s : GuiState, s.isCasting = true → s.localDuration > 0 →
        s.localCurrentTime + 1 < s.localDuration →
        (update_local_progress s).playbackTimerOn = s.playbackTimerOn) ∧
    (∀ (s : GuiState) (n : Nat), 0 < s.localDuration →
        s.localCurrentTime ≤ s.localDuration →
        (playback_tick^[n] s).localCurrentTime ≤ s.localDuration + 1) := by
  have hnotfalse : ∀ s : GuiState, s.isCasting = true → ¬ (s.isCasting = false) := by
    intro s h hx
    rw [h] at hx
    exact absurd hx (by decide)
  refine ⟨?_, ?_, ?_, ?_, ?_⟩
  · intro s h
    unfold update_local_progress
    rw [if_pos h]
  · intro s h
    unfold update_local_progress
    rw [if_neg (hnotfalse s h)]
    by_cases hstop : s.localDuration > 0 ∧ s.localCurrentTime + 1 ≥ s.localDuration
    · rw [if_pos hstop]
    · rw [if_neg hstop]
  · intro s h hd hge
    unfold update_local_progress
    rw [if_neg (hnotfalse s h), if_pos ⟨hd, hge⟩]
  · intro s h hd hlt
    unfold update_local_progress
    rw [if_neg (hnotfalse s h),
        if_neg (show ¬ (s.localDuration > 0 ∧ s.localCurrentTime + 1 ≥ s.localDuration) by omega)]
  · intro s n hdur hpos
    exact (playback_tick_iter s.localDuration hdur n s ⟨rfl, fun _ => hpos, by omega⟩).2.2

/-- Witness for C10 at a concrete saturated state. -/
theorem local_progress_ticker_c10_witness :
    (playback_tick^[3]
      { initState with
        isCasting := true, playbackTimerOn := true,
        localDuration := 2, localCurrentTime := 2 }).localCurrentTime ≤ 2 + 1 := by
  have h := local_progress_ticker_c10.2.2.2.2
    { initState with
      isCasting := true, playbackTimerOn := true,
      localDuration := 2, localCurrentTime := 2 } 3 (by decide) (by decide)
  exact h

/-! ### C4 and C7: status dispatch and time parsing -/

theorem tail_preserves (d : StatusData) (title : String) (wc : Bool) (s2 : GuiState) :
    (handle_status_title_tail d title wc s2).isCasting = s2.isCasting ∧
    (handle_status_title_tail d title wc s2).postTimerOn = s2.postTimerOn ∧
    (handle_status_title_tail d title wc s2).statusTimerOn = s2.statusTimerOn ∧
    (handle_status_title_tail d title wc s2).device = s2.device ∧
    (handle_status_title_tail d title wc s2).inflight = s2.inflight ∧
    (handle_status_title_tail d title wc s2).pipedRunning = s2.pipedRunning ∧
    (handle_status_title_tail d title wc s2).attempts = s2.attempts := by
  refine ⟨?_, ?_, ?_, ?_, ?_, ?_, ?_⟩ <;>
    · simp only [handle_status_title_tail]
      simp [apply_ite GuiState.isCasting, apply_ite GuiState.postTimerOn,
            apply_ite GuiState.statusTimerOn, apply_ite GuiState.device,
            apply_ite GuiState.inflight, apply_ite GuiState.pipedRunning,
            apply_ite GuiState.attempts]

theorem status_title_entry_fields (s : GuiState) :
    (status_title_entry s).isCasting = true ∧
    (status_title_entry s).postTimerOn = false ∧
    (s.isCasting = false → (status_title_entry s).statusTimerOn = true) ∧
    (s.isCasting = true → (status_title_entry s).statusTimerOn = s.statusTimerOn) := by
  unfold status_title_entry
  by_cases hpost : s.postTimerOn = true <;> by_cases hc : s.isCasting = true <;>
    cases hdev : s.device <;>
      simp [hpost, hc, update_control_states, get_selected_device_ip,
            set_playback_controls_enabled, hdev]

theorem set_idle_state_props (msg : String) (s : GuiState) (ip : String)
    (hdev : s.device = some ip) :
    (set_idle_state msg s).isCasting = false ∧
    (set_idle_state msg s).statusLabel = msg ∧
    (set_idle_state msg s).postTimerOn = s.postTimerOn ∧
    (set_idle_state msg s).device = s.device ∧
    (set_idle_state msg s).inflight = s.inflight ∧
    (set_idle_state msg s).pipedRunning = s.pipedRunning ∧
    (set_idle_state msg s).attempts = s.attempts := by
  unfold set_idle_state
  by_cases hg : s.isCasting = false ∧ s.statusLabel = msg
  · rw [if_pos hg]
    exact ⟨hg.1, hg.2, rfl, rfl, rfl, rfl, rfl⟩
  · rw [if_neg hg]
    simp [reset_playback_ui, set_playback_controls_enabled, update_control_states,
          get_selected_device_ip, hdev]

theorem tail_time_fields (d : StatusData) (title : String) (wc : Bool) (s2 : GuiState) :
    ((status_time_info d).2.getD 0 ≤ 0 →
      (handle_status_title_tail d title wc s2).localDuration = 0 ∧
      (handle_status_title_tail d title wc s2).sliderEnabled = false ∧
      (handle_status_title_tail d title wc s2).durationLabel = "Stream") ∧
    (¬ ((status_time_info d).2.getD 0 ≤ 0) →
      (handle_status_title_tail d title wc s2).localDuration = (status_time_info d).2.getD 0 ∧
      (handle_status_title_tail d title wc s2).localCurrentTime = (status_time_info d).1.getD 0 ∧
      (handle_status_title_tail d title wc s2).sliderEnabled = true ∧
      (handle_status_title_tail d title wc s2).durationLabel =
        format_time ((status_time_info d).2.getD 0)) ∧
    (handle_status_title_tail d title wc s2).volumeSlider =
      (pyInt ((d.lookup "volume").getD "0")).getD 0 := by
  refine ⟨?_, ?_, ?_⟩
  · intro hstream
    refine ⟨?_, ?_, ?_⟩ <;>
      · simp only [handle_status_title_tail]
        rw [if_pos hstream]
        all_goals simp [apply_ite GuiState.localDuration, apply_ite GuiState.sliderEnabled,
          apply_ite GuiState.durationLabel]
  · intro hstream
    refine ⟨?_, ?_, ?_, ?_⟩ <;>
      · simp only [handle_status_title_tail]
        rw [if_neg hstream]
  · simp only [handle_status_title_tail]
    by_cases hstream : (status_time_info d).2.getD 0 ≤ 0
    · rw [if_pos hstream]
      simp [apply_ite GuiState.volumeSlider]
    · rw [if_neg hstream]

theorem handle_status_data_title (s : GuiState) (d : StatusData) (title : String)
    (ht : d.lookup "title" = some title) :
    handle_status_data s d =
      handle_status_title_tail d title s.isCasting (status_title_entry s) := by
  unfold handle_status_data
  rw [ht]

theorem handle_status_data_no_title_confirming (s : GuiState) (d : StatusData)
    (ht : d.lookup "title" = none) (hp : s.postTimerOn = true) :
    handle_status_data s d = s := by
  unfold handle_status_data
  rw [ht, if_pos hp]

theorem handle_status_data_idle_volume (s : GuiState) (d : StatusData) (v : String)
    (ht : d.lookup "title" = none) (hp : s.postTimerOn = false)
    (hv : d.lookup "volume" = some v) :
    handle_status_data s d =
      { set_idle_state "Idle. Ready to cast." s with volumeSlider := (pyInt v).getD 0 } := by
  unfold handle_status_data
  rw [ht, if_neg (by rw [hp]; exact (by decide)), hv]

theorem handle_status_data_idle_no_volume (s : GuiState) (d : StatusData)
    (ht : d.lookup "title" = none) (hp : s.postTimerOn = false)
    (hv : d.lookup "volume" = none) :
    handle_status_data s d = set_idle_state "Device is idle or not responding." s := by
  unfold handle_status_data
  rw [ht, if_neg (by rw [hp]; exact (by decide)), hv]

def c4_state : GuiState :=
  { initState with
    device := some "192.168.1.30", deviceName := "Room TV (192.168.1.30)",
    isCasting := true, statusTimerOn := false, postTimerOn := true }

def c4_data : StatusData :=
  parse_status_output "Title: Big Buck Bunny\nState: PLAYING\nVolume: 50"

/-- Claim C4 counterexample: a status response with a title arriving while
a confirming cycle is active and the session is already marked casting
(the state reached by a quick action's fast poll: `_start_fast_poll`
stopped the slow resync timer) yields a state whose slow resync timer is
NOT running, refuting "the session always becomes Active (is_casting true,
slow resync timer running)". -/
theorem status_title_c4_counterexample :
    (c4_data.lookup "title") = some "Big Buck Bunny" ∧
    (handle_status_data c4_state c4_data).isCasting = true ∧
    (handle_status_data c4_state c4_data).postTimerOn = false ∧
    (handle_status_data c4_state c4_data).statusTimerOn = false := by
  refine ⟨by decide, by decide, by decide, by decide⟩

/-- Claim C4 (amended): with a device selected, a title-bearing status
response always yields is_casting true, cancels a confirming cycle, and
starts the slow resync timer when the session was not already marked
casting (when it was, the timer is left as it stood); a title-less
response during a confirming cycle leaves the state entirely unchanged; a
title-less response outside one yields Idle — with believed volume updated
and the default idle message when a volume key is present, and the message
"Device is idle or not responding." when neither key is present. -/
theorem status_dispatch_c4_amended (s : GuiState) (d : StatusData) (ip : String)
    (hdev : s.device = some ip) :
    (∀ title, d.lookup "title" = some title →
        (handle_status_data s d).isCasting = true ∧
        (handle_status_data s d).postTimerOn = false ∧
        (s.isCasting = false → (handle_status_data s d).statusTimerOn = true) ∧
        (s.isCasting = true → (handle_status_data s d).statusTimerOn = s.statusTimerOn)) ∧
    (d.lookup "title" = none → s.postTimerOn = true → handle_status_data s d = s) ∧
    (∀ v, d.lookup "title" = none → s.postTimerOn = false → d.lookup "volume" = some v →
        (handle_status_data s d).isCasting = false ∧
        (handle_status_data s d).statusLabel = "Idle. Ready to cast." ∧
        (handle_status_data s d).volumeSlider = (pyInt v).getD 0) ∧
    (d.lookup "title" = none → s.postTimerOn = false → d.lookup "volume" = none →
        (handle_status_data s d).isCasting = false ∧
        (handle_status_data s d).statusLabel = "Device is idle or not responding.") := by
  refine ⟨?_, handle_status_data_no_title_confirming s d, ?_, ?_⟩
  · intro title ht
    rw [handle_status_data_title s d title ht]
    obtain ⟨p1, p2, p3, -, -, -, -⟩ :=
      tail_preserves d title s.isCasting (status_title_entry s)
    obtain ⟨e1, e2, e3, e4⟩ := status_title_entry_fields s
    exact ⟨by rw [p1, e1], by rw [p2, e2], fun hc => by rw [p3, e3 hc],
           fun hc => by rw [p3, e4 hc]⟩
  · intro v ht hp hv
    rw [handle_status_data_idle_volume s d v ht hp hv]
    obtain ⟨i1, i2, -, -, -, -, -⟩ :=
      set_idle_state_props "Idle. Ready to cast." s ip hdev
    exact ⟨i1, i2, rfl⟩
  · intro ht hp hv
    rw [handle_status_data_idle_no_volume s d ht hp hv]
    obtain ⟨i1, i2, -, -, -, -, -⟩ :=
      set_idle_state_props "Device is idle or not responding." s ip hdev
    exact ⟨i1, i2⟩

/-- Witness for the amended C4: a concrete volume-only response on an idle
session. -/
theorem status_dispatch_c4_amended_witness :
    (handle_status_data { initState with device := some "10.0.0.4" }
        (parse_status_output "Volume: 35")).isCasting = false ∧
    (handle_status_data { initState with device := some "10.0.0.4" }
        (parse_status_output "Volume: 35")).statusLabel = "Idle. Ready to cast." ∧
    (handle_status_data { initState with device := some "10.0.0.4" }
        (parse_status_output "Volume: 35")).volumeSlider = 35 := by
  have h := (status_dispatch_c4_amended { initState with device := some "10.0.0.4" }
    (parse_status_output "Volume: 35") "10.0.0.4" rfl).2.2.1 "35" (by decide) (by decide)
    (by decide)
  exact ⟨h.1, h.2.1, h.2.2⟩

/-- Claim C7: "0:01:23 / 1:23:45" parses to position 83 and duration 5025
and is treated as bounded media (progress bar enabled, duration label set);
"N/A" parses to nothing; a malformed or absent time value, or a
non-positive parsed duration, is treated as a live stream (duration zero,
progress bar disabled, duration shown as "Stream") while the rest of the
parse (e.g. the volume update) still applies. -/
theorem time_parsing_c7 (s : GuiState) (d : StatusData) (title : String)
    (ht : d.lookup "title" = some title) :
    parseTimeField "0:01:23 / 1:23:45" = (some 83, some 5025) ∧
    parseTimeField "N/A" = (none, none) ∧
    (d.lookup "time" = some "0:01:23 / 1:23:45" →
        (handle_status_data s d).localCurrentTime = 83 ∧
        (handle_status_data s d).localDuration = 5025 ∧
        (handle_status_data s d).sliderEnabled = true ∧
        (handle_status_data s d).durationLabel = format_time 5025) ∧
    (∀ (t : String) (p dopt : Option Int),
        d.lookup "time" = some t → parseTimeField t = (p, dopt) → dopt.getD 0 ≤ 0 →
        (handle_status_data s d).localDuration = 0 ∧
        (handle_status_data s d).sliderEnabled = false ∧
        (handle_status_data s d).durationLabel = "Stream") ∧
    (d.lookup "time" = none →
        (handle_status_data s d).localDuration = 0 ∧
        (handle_status_data s d).sliderEnabled = false ∧
        (handle_status_data s d).durationLabel = "Stream") ∧
    (∀ v, d.lookup "volume" = some v →
        (handle_status_data s d).volumeSlider = (pyInt v).getD 0) := by
  have he := handle_status_data_title s d title ht
  obtain ⟨hstream_case, hbound_case, hvol⟩ :=
    tail_time_fields d title s.isCasting (status_title_entry s)
  refine ⟨by decide, by decide, ?_, ?_, ?_, ?_⟩
  · intro htime
    have hinfo : status_time_info d = (some 83, some 5025) := by
      unfold status_time_info
      rw [htime]
      decide
    have hb := hbound_case (by rw [hinfo]; decide)
    rw [he]
    refine ⟨?_, ?_, hb.2.2.1, ?_⟩
    · rw [hb.2.1, hinfo]
      rfl
    · rw [hb.1, hinfo]
      rfl
    · rw [hb.2.2.2, hinfo]
      rfl
  · intro t p dopt htime hp hle
    have hinfo : status_time_info d = (p, dopt) := by
      unfold status_time_info
      rw [htime]
      show parseTimeField t = (p, dopt)
      exact hp
    have hs := hstream_case (by rw [hinfo]; exact hle)
    rw [he]
    exact hs
  · intro htime
    have hinfo : status_time_info d = (none, none) := by
      unfold status_time_info
      rw [htime]
    have hs := hstream_case (by rw [hinfo]; decide)
    rw [he]
    exact hs
  · intro v hv
    rw [he, hvol, hv]
    rfl

/-- Witness for C7 at a concrete playing status with the spec's example
time field. -/
theorem time_parsing_c7_witness :
    (handle_status_data { initState with device := some "10.0.0.5" }
        (parse_status_output "Title: T\nState: PLAYING\nTime: 0:01:23 / 1:23:45")).localCurrentTime
      = 83 ∧
    (handle_status_data { initState with device := some "10.0.0.5" }
        (parse_status_output "Title: T\nState: PLAYING\nTime: 0:01:23 / 1:23:45")).localDuration
      = 5025 := by
  have h := (time_parsing_c7 { initState with device := some "10.0.0.5" }
    (parse_status_output "Title: T\nState: PLAYING\nTime: 0:01:23 / 1:23:45") "T"
    (by decide)).2.2.1 (by decide)
  exact ⟨h.1, h.2.1⟩

/-! ### C9: failed relay resolution -/

/-- Claim C9: when a cast or enqueue routed through URL resolution fails,
no catt command is ever issued for the attempt, the pending-resolution
record is cleared, the error is surfaced as a status message, and the
believed playback state (casting flag, timers, attempt counter, position,
duration, volume, mute) is exactly what it was before the attempt. -/
theorem piped_failure_c9 (s : GuiState) (ip dev errMsg : String) (mode : CastMode)
    (hdev : s.device = some dev) (hfree : busy s = false) :
    (piped_flow_error ip mode errMsg s).2 = [] ∧
    (piped_flow_error ip mode errMsg s).1.pendingPiped = none ∧
    (piped_flow_error ip mode errMsg s).1.statusLabel = "Piped Error: " ++ errMsg ∧
    playback_view (piped_flow_error ip mode errMsg s).1 = playback_view s := by
  have hfree' : busy { s with statusLabel := "Getting direct URL from Piped..." } = false := by
    simpa [busy] using hfree
  unfold piped_flow_error get_url_from_piped_and_run
  rw [hfree']
  unfold start_piped_fetch handle_piped_error on_piped_thread_finished
  simp [set_controls_enabled, update_control_states, get_selected_device_ip,
        set_playback_controls_enabled, hdev, playback_view]

/-- Witness for C9 at a concrete device and error. -/
theorem piped_failure_c9_witness :
    (piped_flow_error "10.1.1.7" CastMode.cast "HTTP Error 502"
        { initState with device := some "10.1.1.7", deviceName := "TV (10.1.1.7)" }).2 = [] ∧
    (piped_flow_error "10.1.1.7" CastMode.cast "HTTP Error 502"
        { initState with device := some "10.1.1.7", deviceName := "TV (10.1.1.7)" }).1.pendingPiped
      = none ∧
    playback_view (piped_flow_error "10.1.1.7" CastMode.cast "HTTP Error 502"
        { initState with device := some "10.1.1.7", deviceName := "TV (10.1.1.7)" }).1 =
      playback_view { initState with device := some "10.1.1.7", deviceName := "TV (10.1.1.7)" } := by
  have h := piped_failure_c9
    { initState with device := some "10.1.1.7", deviceName := "TV (10.1.1.7)" }
    "10.1.1.7" "10.1.1.7" "HTTP Error 502" CastMode.cast rfl rfl
  exact ⟨h.1, h.2.1, h.2.2.2⟩

/-! ### C3: the confirming cycle issues exactly five polls -/

theorem confirm_step_noop (d : StatusData) (s : GuiState) (n : Nat)
    (hpost : s.postTimerOn = false) (hinf : s.inflight = none) :
    confirm_step d (s, n) = (s, n) := by
  simp [confirm_step, fast_tick, settle_poll, hpost, hinf]

theorem confirm_step_poll (d : StatusData) (s : GuiState) (n : Nat) (ip : String)
    (hpost : s.postTimerOn = true) (hatt : s.attempts + 1 ≤ 5)
    (hdev : s.device = some ip) (hinf : s.inflight = none) (hpip : s.pipedRunning = false)
    (htitle : d.lookup "title" = none) :
    confirm_step d (s, n) = ({ s with attempts := s.attempts + 1 }, n + 1) := by
  have hgt : ¬ (s.attempts + 1 > 5) := by omega
  simp [confirm_step, fast_tick, poll_status_after_cast, request_status_update,
        get_selected_device_ip, run_catt_command, busy, settle_poll, finish_inflight,
        handle_status_data, hpost, hgt, hdev, hinf, hpip, htitle]

theorem confirm_step_giveup (d : StatusData) (s : GuiState) (n : Nat)
    (hpost : s.postTimerOn = true) (hatt : s.attempts = 5) :
    confirm_step d (s, n) =
      (settle_poll d
        (set_idle_state "Action sent, but status is unknown."
          { s with attempts := 6, postTimerOn := false }), n) := by
  have hgt : (5 : Nat) + 1 > 5 := by omega
  simp [confirm_step, fast_tick, poll_status_after_cast, hpost, hatt, hgt]

theorem settle_poll_of_none (d : StatusData) (x : GuiState) (h : x.inflight = none) :
    settle_poll d x = x := by
  simp [settle_poll, h]

theorem confirm_run_noop (ds : List StatusData) :
    ∀ (s : GuiState) (n : Nat), s.postTimerOn = false → s.inflight = none →
      confirm_run ds (s, n) = (s, n) := by
  induction ds with
  | nil => intro s n _ _; rfl
  | cons d t ih =>
    intro s n hpost hinf
    show confirm_run t (confirm_step d (s, n)) = (s, n)
    rw [confirm_step_noop d s n hpost hinf]
    exact ih s n hpost hinf

theorem confirm_run_inv (ds : List StatusData) :
    ∀ (s : GuiState) (n : Nat) (ip : String),
      s.device = some ip → s.inflight = none → s.pipedRunning = false →
      s.postTimerOn = true → 1 ≤ s.attempts → s.attempts ≤ 5 →
      (∀ d ∈ ds, d.lookup "title" = none) →
      (confirm_run ds (s, n)).2 = n + min ds.length (5 - s.attempts) ∧
      (6 ≤ ds.length + s.attempts →
        (confirm_run ds (s, n)).1.postTimerOn = false ∧
        (confirm_run ds (s, n)).1.isCasting = false ∧
        (confirm_run ds (s, n)).1.statusLabel = "Action sent, but status is unknown.") ∧
      (ds.length + s.attempts ≤ 5 →
        (confirm_run ds (s, n)).1 = { s with attempts := s.attempts + ds.length }) := by
  induction ds with
  | nil =>
    intro s n ip hdev hinf hpip hpost hk1 hk5 _
    refine ⟨by simp [confirm_run], by intro h; simp at h; omega, ?_⟩
    intro _
    show s = { s with attempts := s.attempts + 0 }
    rfl
  | cons d t ih =>
    intro s n ip hdev hinf hpip hpost hk1 hk5 hds
    have htitle : d.lookup "title" = none := hds d (List.mem_cons_self _ _)
    have hdst : ∀ d' ∈ t, d'.lookup "title" = none :=
      fun d' hd' => hds d' (List.mem_cons_of_mem _ hd')
    by_cases hklt : s.attempts + 1 ≤ 5
    · have hstep := confirm_step_poll d s n ip hpost hklt hdev hinf hpip htitle
      have hrun : confirm_run (d :: t) (s, n) =
          confirm_run t ({ s with attempts := s.attempts + 1 }, n + 1) := by
        show confirm_run t (confirm_step d (s, n)) = _
        rw [hstep]
      obtain ⟨ihc, ihg, ihe⟩ := ih { s with attempts := s.attempts + 1 } (n + 1) ip
        hdev hinf hpip hpost (by simp) (by simpa using hklt) hdst
      refine ⟨?_, ?_, ?_⟩
      · rw [hrun, ihc]
        simp only [List.length_cons]
        omega
      · intro hlen
        rw [hrun]
        exact ihg (by simp at hlen ⊢; omega)
      · intro hlen
        rw [hrun, ihe (by simp at hlen ⊢; omega)]
        show ({ s with attempts := s.attempts + 1 + t.length } : GuiState) = _
        simp only [List.length_cons]
        congr 1
        omega
    · have h5 : s.attempts = 5 := by omega
      have hstep := confirm_step_giveup d s n hpost h5
      set g := set_idle_state "Action sent, but status is unknown."
        { s with attempts := 6, postTimerOn := false } with hg
      obtain ⟨g1, g2, g3, g4, g5, g6, g7⟩ := set_idle_state_props
        "Action sent, but status is unknown."
        { s with attempts := 6, postTimerOn := false } ip hdev
      have hginf : g.inflight = none := by rw [hg, g5]; exact hinf
      have hgpost : g.postTimerOn = false := by rw [hg, g3]
      have hrun : confirm_run (d :: t) (s, n) = (g, n) := by
        show confirm_run t (confirm_step d (s, n)) = _
        rw [hstep, settle_poll_of_none d g hginf]
        exact confirm_run_noop t g n hgpost hginf
      refine ⟨?_, ?_, ?_⟩
      · rw [hrun]
        simp only [List.length_cons]
        omega
      · intro _
        rw [hrun]
        exact ⟨hgpost, g1, g2⟩
      · intro hlen
        simp only [List.length_cons] at hlen
        omega

theorem arm_confirm_eq_step (msg : String) (d0 : StatusData) (s0 : GuiState) :
    arm_confirm msg d0 s0 = confirm_step d0 (armed_state msg s0, 0) := by
  simp [arm_confirm, confirm_step, fast_tick, start_fast_poll, armed_state]

/-- Claim C3: arming the confirming cycle (attempt counter zeroed,
fast-poll timer started, one immediate poll fired and settled) and letting
the 3-second timer fire with only title-less responses issues exactly
`min (ticks+1) 5` status polls — never more than 5, and exactly 5 once the
timer has fired 5 times — after which the timer is stopped and the session
is Idle with the message "Action sent, but status is unknown.". -/
theorem confirming_five_polls_c3 (s0 : GuiState) (ip msg : String) (d0 : StatusData)
    (ds : List StatusData)
    (hdev : s0.device = some ip) (hinf : s0.inflight = none) (hpip : s0.pipedRunning = false)
    (hd0 : d0.lookup "title" = none) (hds : ∀ d ∈ ds, d.lookup "title" = none) :
    (confirm_run ds (arm_confirm msg d0 s0)).2 = min (ds.length + 1) 5 ∧
    (confirm_run ds (arm_confirm msg d0 s0)).2 ≤ 5 ∧
    (5 ≤ ds.length →
      (confirm_run ds (arm_confirm msg d0 s0)).1.postTimerOn = false ∧
      (confirm_run ds (arm_confirm msg d0 s0)).1.isCasting = false ∧
      (confirm_run ds (arm_confirm msg d0 s0)).1.statusLabel =
        "Action sent, but status is unknown.") := by
  have hstep := confirm_step_poll d0 (armed_state msg s0) 0 ip
    (by simp [armed_state]) (by simp [armed_state]) (by simp [armed_state, hdev])
    (by simp [armed_state, hinf]) (by simp [armed_state, hpip]) hd0
  have harm : arm_confirm msg d0 s0 = ({ armed_state msg s0 with attempts := 1 }, 1) := by
    rw [arm_confirm_eq_step, hstep]
    simp [armed_state]
  obtain ⟨ic, ig, -⟩ := confirm_run_inv ds { armed_state msg s0 with attempts := 1 } 1 ip
    (by simp [armed_state, hdev]) (by simp [armed_state, hinf])
    (by simp [armed_state, hpip]) (by simp [armed_state]) (by simp) (by simp) hds
  rw [harm]
  refine ⟨?_, ?_, ?_⟩
  · rw [ic]
    simp only [armed_state]
    omega
  · rw [ic]
    simp only [armed_state]
    omega
  · intro hlen
    exact ig (by simp [armed_state]; omega)

/-- Witness for C3: a concrete armed cycle with five title-less timer
firings yields exactly 5 polls and the give-up state. -/
theorem confirming_five_polls_c3_witness :
    (confirm_run (List.replicate 5 ([] : StatusData))
      (arm_confirm "Cast sent. Confirming playback..." []
        { initState with device := some "10.0.0.2" })).2 = 5 ∧
    (confirm_run (List.replicate 5 ([] : StatusData))
      (arm_confirm "Cast sent. Confirming playback..." []
        { initState with device := some "10.0.0.2" })).1.isCasting = false ∧
    (confirm_run (List.replicate 5 ([] : StatusData))
      (arm_confirm "Cast sent. Confirming playback..." []
        { initState with device := some "10.0.0.2" })).1.statusLabel =
      "Action sent, but status is unknown." := by
  have h := confirming_five_polls_c3 { initState with device := some "10.0.0.2" }
    "10.0.0.2" "Cast sent. Confirming playback..." [] (List.replicate 5 ([] : StatusData))
    rfl rfl rfl rfl
    (by intro d hd; rw [List.eq_of_mem_replicate hd]; rfl)
  have hg := h.2.2 (by simp)
  exact ⟨by rw [h.1]; simp, hg.2.1, hg.2.2⟩
